import Mathlib

/-!
# Verification of the pingpong-web room server and host physics

Shallow embedding of the two-player ball-and-paddle game:

* the socket server (TypeScript variant, `server.ts`): room registry,
  `createRoom` / `joinRoom` / `startGame` / `paddleMove` / `ballUpdate` /
  `scoreUpdate` / `ready` / `disconnect` handlers;
* the host-side physics loop of `MultiplayerGameScene.tsx`: per-frame paddle
  clamping, the sub-stepped ball integration with wall and paddle collision,
  scoring, and the score cooldown.

Numbers are embedded as exact rationals (the source's decimal literals are
exact in ℚ).  `Math.random` outcomes are passed as explicit inputs
(`generateRoomId`'s result is the `genId` argument of `handleCreateRoom`).
`Math.sin` / `Math.cos` / `Math.sqrt` (the latter inside
`Vector3.length` / `normalize`) are passed as oracle functions `sinO cosO
sqrtO : ℚ → ℚ`; theorems that depend on trigonometric facts take the
defining identity `sinO a ^ 2 + cosO a ^ 2 = 1` as a hypothesis.
-/

namespace PingPong

/-- A 3-component vector, as the `{x, y, z}` objects of the source. -/
structure Vec3 where
  x : ℚ
  y : ℚ
  z : ℚ
deriving DecidableEq, Repr

/-- The ball record stored in `GameState` and carried by `ballUpdate`
payloads.  The server's TS type has no `speed` field but the host client
includes one in its payloads and the server stores the payload verbatim,
so the embedded record carries `speed : Option ℚ` (`none` = field absent). -/
structure Ball where
  x : ℚ
  y : ℚ
  z : ℚ
  direction : Vec3
  speed : Option ℚ
deriving DecidableEq, Repr

/-- Server `GameState`: ball, paddles keyed by player id (association list
standing for the JS object), and the two score counters. -/
structure GameState where
  ball : Ball
  paddles : List (String × Vec3)
  score : ℕ × ℕ
deriving DecidableEq, Repr

/-- Server `GameRoom`.  `readyPlayers` is a JS `Set`, modelled as a
duplicate-free list in insertion order. -/
structure GameRoom where
  id : String
  players : List String
  gameState : GameState
  isActive : Bool
  readyPlayers : List String
deriving DecidableEq, Repr

/-- The room registry `rooms : Map<string, GameRoom>`, as an association
list in insertion order. -/
abbrev Registry := List (String × GameRoom)

/-- `Map.get` on an association list. -/
def alGet {α : Type} : List (String × α) → String → Option α
  | [], _ => none
  | e :: t, k => if e.1 == k then some e.2 else alGet t k

/-- `Map.set` on an association list: replace the first entry with the key
in place, else append (JS `Map` insertion-order semantics). -/
def alSet {α : Type} : List (String × α) → String → α → List (String × α)
  | [], k, v => [(k, v)]
  | e :: t, k, v => if e.1 == k then (k, v) :: t else e :: alSet t k v

/-- Server messages (the `S→C` events). -/
inductive SMsg where
  | errorMsg (reason : String)
  | roomCreated (roomId : String) (players : List String)
  | playerJoined (players : List String) (gameState : GameState)
  | gameStart (gameState : GameState) (players : List String)
      (isHost : Bool) (playerIndex : ℕ)
  | opponentPaddleMove (playerId : String) (position : Vec3)
  | ballSync (ball : Ball)
  | scoreSync (score : ℕ × ℕ)
  | allPlayersReady (gameState : GameState) (players : List String)
  | playerDisconnected
deriving DecidableEq, Repr

/-- One emitted message, addressed to one socket. -/
structure Emit where
  dest : String
  msg : SMsg
deriving DecidableEq, Repr

/-- Targets of `io.to(roomId).emit(...)`: every socket in the room (the
sockets that joined the room are exactly the roster; a socket.io room is a
set, hence the `dedup`). -/
def roomTargets (room : GameRoom) : List String :=
  room.players.dedup

/-- Targets of `socket.to(roomId).emit(...)`: every socket in the room
except the sender. -/
def relayTargets (sender : String) (room : GameRoom) : List String :=
  (room.players.filter (fun p => p != sender)).dedup

/-- `createGameState()` (server). -/
def createGameState : GameState :=
  { ball := { x := 0, y := 11/50, z := 0, direction := ⟨0, 0, 1⟩, speed := none }
    paddles := []
    score := (0, 0) }

/-- The room built by the `createRoom` handler for sender `sid` under the
generated code `genId`: single host paddle at the host baseline
`{x: 0, y: 0.15, z: -9}`, inactive, empty ready set. -/
def freshRoom (sid genId : String) : GameRoom :=
  { id := genId
    players := [sid]
    gameState := { createGameState with paddles := [(sid, ⟨0, 3/20, -9⟩)] }
    isActive := false
    readyPlayers := [] }

/-- `socket.on('createRoom')`.  `genId` is the value returned by
`generateRoomId()` (a `Math.random`-derived 6-character code); the handler
calls `rooms.set(roomId, room)` unconditionally — there is no check that
`genId` is absent from the registry. -/
def handleCreateRoom (rs : Registry) (sid genId : String) : Registry × List Emit :=
  (alSet rs genId (freshRoom sid genId),
   [⟨sid, SMsg.roomCreated genId [sid]⟩])

/-- `socket.on('joinRoom')`. -/
def handleJoinRoom (rs : Registry) (sid roomId : String) : Registry × List Emit :=
  match alGet rs roomId with
  | none => (rs, [⟨sid, SMsg.errorMsg "Room not found"⟩])
  | some room =>
    if room.players.length ≥ 2 then
      (rs, [⟨sid, SMsg.errorMsg "Room is full"⟩])
    else
      let room' := { room with
        players := room.players ++ [sid]
        gameState := { room.gameState with
          paddles := alSet room.gameState.paddles sid ⟨0, 3/20, 9⟩ } }
      (alSet rs roomId room',
       (roomTargets room').map
         (fun p => ⟨p, SMsg.playerJoined room'.players room'.gameState⟩))

/-- `socket.on('startGame')`: checks the room exists, has exactly two
players, and the sender is `players[0]`; then activates the room, clears
the ready set, and notifies each player with its role and index. -/
def handleStartGame (rs : Registry) (sid roomId : String) : Registry × List Emit :=
  match alGet rs roomId with
  | none => (rs, [⟨sid, SMsg.errorMsg "Room not found"⟩])
  | some room =>
    if room.players.length ≠ 2 then
      (rs, [⟨sid, SMsg.errorMsg "Not enough players to start game"⟩])
    else if room.players[0]? ≠ some sid then
      (rs, [⟨sid, SMsg.errorMsg "Only host can start the game"⟩])
    else
      let room' := { room with isActive := true, readyPlayers := [] }
      (alSet rs roomId room',
       room'.players.enum.map
         (fun e => ⟨e.2, SMsg.gameStart room'.gameState room'.players (e.1 == 0) e.1⟩))

/-- `socket.on('paddleMove')`: stores the payload position verbatim (no
clamping, no validation of `x`) when the sender has a paddle entry, and
relays it to the other sockets in the room; silently does nothing
otherwise. -/
def handlePaddleMove (rs : Registry) (sid roomId : String) (position : Vec3) :
    Registry × List Emit :=
  match alGet rs roomId with
  | none => (rs, [])
  | some room =>
    if (alGet room.gameState.paddles sid).isSome then
      (alSet rs roomId { room with
        gameState := { room.gameState with
          paddles := alSet room.gameState.paddles sid position } },
       (relayTargets sid room).map
         (fun p => ⟨p, SMsg.opponentPaddleMove sid position⟩))
    else (rs, [])

/-- `socket.on('ballUpdate')`: only accepted when the sender is
`players[0]`; stores the payload verbatim and relays it to the other
sockets; silently does nothing otherwise (no error emit). -/
def handleBallUpdate (rs : Registry) (sid roomId : String) (ballState : Ball) :
    Registry × List Emit :=
  match alGet rs roomId with
  | none => (rs, [])
  | some room =>
    if room.players[0]? = some sid then
      (alSet rs roomId { room with
        gameState := { room.gameState with ball := ballState } },
       (relayTargets sid room).map (fun p => ⟨p, SMsg.ballSync ballState⟩))
    else (rs, [])

/-- `socket.on('scoreUpdate')`: host-only like `ballUpdate`, but broadcast
to the whole room including the sender. -/
def handleScoreUpdate (rs : Registry) (sid roomId : String) (score : ℕ × ℕ) :
    Registry × List Emit :=
  match alGet rs roomId with
  | none => (rs, [])
  | some room =>
    if room.players[0]? = some sid then
      (alSet rs roomId { room with
        gameState := { room.gameState with score := score } },
       (roomTargets room).map (fun p => ⟨p, SMsg.scoreSync score⟩))
    else (rs, [])

/-- `Set.add` on the ready set. -/
def insertReady (l : List String) (sid : String) : List String :=
  if l.contains sid then l else l ++ [sid]

/-- The game state installed when every player has signalled ready:
ball at the court origin with the zero direction vector (no velocity
pending the first serve), every paddle centered at `{x: 0, y: 0.15, z: 0}`,
score reset to 0–0. -/
def readyResetState (players : List String) : GameState :=
  { ball := { x := 0, y := 11/50, z := 0, direction := ⟨0, 0, 0⟩, speed := none }
    paddles := players.foldl (fun acc p => alSet acc p ⟨0, 3/20, 0⟩) []
    score := (0, 0) }

/-- `socket.on('ready')`: errors for a missing room, an inactive room, or
a non-member sender; otherwise adds the sender to the ready set and, when
the set reaches the roster size, installs `readyResetState` and broadcasts
`allPlayersReady` to the room.  The ready set is not cleared here (it is
cleared by `startGame`). -/
def handleReady (rs : Registry) (sid roomId : String) : Registry × List Emit :=
  match alGet rs roomId with
  | none => (rs, [⟨sid, SMsg.errorMsg "Room not found"⟩])
  | some room =>
    if room.isActive = false then
      (rs, [⟨sid, SMsg.errorMsg "Game not started yet"⟩])
    else if ¬ room.players.contains sid then
      (rs, [⟨sid, SMsg.errorMsg "Player not in room"⟩])
    else
      let ready' := insertReady room.readyPlayers sid
      if ready'.length = room.players.length then
        let gs' := readyResetState room.players
        let room' := { room with readyPlayers := ready', gameState := gs' }
        (alSet rs roomId room',
         (roomTargets room').map
           (fun p => ⟨p, SMsg.allPlayersReady gs' room'.players⟩))
      else
        (alSet rs roomId { room with readyPlayers := ready' }, [])

/-- `socket.on('disconnect')`: every room whose roster contains the
disconnected socket is deleted from the registry (the in-place
`isActive := false` write on the deleted record is unobservable), and
`playerDisconnected` is relayed to the other sockets of each such room. -/
def handleDisconnect (rs : Registry) (sid : String) : Registry × List Emit :=
  (rs.filter (fun e => !(e.2.players.contains sid)),
   (rs.filter (fun e => e.2.players.contains sid)).flatMap
     (fun e => ((e.2.players.filter (fun p => p != sid)).dedup).map
       (fun p => ⟨p, SMsg.playerDisconnected⟩)))

/-! ## Host-side physics (`MultiplayerGameScene.tsx`)

The constants of the multiplayer scene, the collision helpers, the
sub-stepped ball integration of `useFrame`, and the scoring handler.
React state setters (`setBallDirection`, `setScore`, ...) are modelled as
functional state updates that take effect for the next frame; within one
frame the closure variable `ballDirection` keeps its frame-initial value,
exactly as the source closure does (collision emits therefore carry the
pre-collision direction, and every sub-step integrates along the
frame-initial direction — a collision breaks out of the loop). -/

/-- `COURT_WIDTH`. -/
def COURT_WIDTH : ℚ := 10
/-- `COURT_LENGTH`. -/
def COURT_LENGTH : ℚ := 20
/-- `BALL_RADIUS`. -/
def BALL_RADIUS : ℚ := 11/50
/-- `BALL_SPEED` (the base / serve speed). -/
def BALL_SPEED : ℚ := 1/5
/-- `PADDLE_SPEED`. -/
def PADDLE_SPEED : ℚ := 3/10
/-- `PADDLE_SIZE.width`. -/
def PADDLE_WIDTH : ℚ := 2
/-- `PADDLE_SIZE.height`. -/
def PADDLE_HEIGHT : ℚ := 3/10
/-- `PADDLE_SIZE.depth`. -/
def PADDLE_DEPTH : ℚ := 3/10
/-- `COLLISION_BUFFER`. -/
def COLLISION_BUFFER : ℚ := 1/4
/-- `WALL_BOUNCE_DAMPENING`. -/
def WALL_BOUNCE_DAMPENING : ℚ := 49/50
/-- `PADDLE_BOUNCE_BOOST`. -/
def PADDLE_BOUNCE_BOOST : ℚ := 101/100
/-- `MAX_BALL_SPEED`. -/
def MAX_BALL_SPEED : ℚ := 3/10
/-- `SYNC_RATE` (ms). -/
def SYNC_RATE : ℚ := 16
/-- `COLLISION_CHECK_STEPS` (sub-steps per frame). -/
def COLLISION_CHECK_STEPS : ℕ := 5
/-- `COLLISION_COOLDOWN` (ms). -/
def COLLISION_COOLDOWN : ℚ := 100

/-- `MathUtils.clamp(value, min, max)` = `Math.max(min, Math.min(max, value))`. -/
def three_clamp (value lo hi : ℚ) : ℚ :=
  max lo (min hi value)

/-- Client game status. -/
inductive GStatus where
  | waiting
  | playing
  | finished
deriving DecidableEq, Repr

/-- Messages emitted by the client (`C→S` events used by the scene). -/
inductive CEmit where
  | ballUpdate (roomId : String) (ball : Ball)
  | scoreUpdate (roomId : String) (score : ℕ × ℕ)
  | paddleMove (roomId : String) (x y z : ℚ) (velocity : Option ℚ)
deriving DecidableEq, Repr

/-- The mutable state of `MultiplayerGameScene` relevant to the physics
loop: ball mesh position, `ballDirection`, `ballSpeedRef`, local `score`,
`gameStatus`, `scoreCooldown`, `lastScorer` (`true` = player1),
`lastCollisionTime` / `lastSyncTime` (ms), `lastFrameTime` (s),
the local paddle's x (`player1Ref.position.x`) and the opponent paddle's x
(`opponentPosition.x`; its z is hard-coded at the call sites). -/
structure ClientState where
  ballPos : Vec3
  dir : Vec3
  speed : ℚ
  score : ℕ × ℕ
  gameStatus : GStatus
  scoreCooldown : Bool
  lastScorer : Option Bool
  lastCollisionTime : ℚ
  lastSyncTime : ℚ
  lastFrameTime : ℚ
  p1x : ℚ
  oppX : ℚ
deriving DecidableEq, Repr

/-- A paddle argument of `checkPaddleCollision` (`velocity` is an optional
field; the two `useFrame` call sites never pass it). -/
structure PadInfo where
  x : ℚ
  y : ℚ
  z : ℚ
  velocity : Option ℚ
deriving DecidableEq, Repr

/-- `checkWallCollision`: returns the mutated `nextPosition` and the
reflected direction on a side-wall hit, `none` otherwise. -/
def checkWallCollision (np d : Vec3) : Option (Vec3 × Vec3) :=
  let leftWall := -COURT_WIDTH / 2 + BALL_RADIUS + COLLISION_BUFFER
  let rightWall := COURT_WIDTH / 2 - BALL_RADIUS - COLLISION_BUFFER
  if np.x ≤ leftWall then
    some (⟨leftWall + COLLISION_BUFFER, np.y, np.z⟩, ⟨-d.x, 0, d.z⟩)
  else if np.x ≥ rightWall then
    some (⟨rightWall - COLLISION_BUFFER, np.y, np.z⟩, ⟨-d.x, 0, d.z⟩)
  else none

/-- The wall-bounce speed update `ballSpeedRef.current *= WALL_BOUNCE_DAMPENING`
(note: no lower clamp). -/
def wallDampSpeed (s : ℚ) : ℚ :=
  s * WALL_BOUNCE_DAMPENING

/-- The paddle-bounce speed update:
`min(speed * (PADDLE_BOUNCE_BOOST + |velocity| * 0.01), MAX_BALL_SPEED)`. -/
def paddleBoostSpeed (s v : ℚ) : ℚ :=
  min (s * (PADDLE_BOUNCE_BOOST + |v| * (1/100))) MAX_BALL_SPEED

/-- The post-bounce direction
`new Vector3(Math.sin(a), 0, Math.sign(zdir) * Math.cos(a)).normalize()`
with `s = Math.sin(a)`, `c = Math.cos(a)`, `zdir = ±1` (so
`Math.sign(zdir) = zdir`).  The trailing `.normalize()` is the identity
map here because `s² + c² = 1` already makes the vector unit length. -/
def paddleBounceDir (s c zdir : ℚ) : Vec3 :=
  ⟨s, 0, zdir * c⟩

/-- `checkPaddleCollision`: given the ms clock `now`, the collision
cooldown stamp, the current ball speed, the paddle, the side flag, the
candidate `nextPosition` and the current direction, returns
`(newDirection, mutated nextPosition, boosted speed)` on a hit (the caller
stamps `lastCollisionTime := now`), `none` otherwise. -/
def checkPaddleCollision (sinO cosO : ℚ → ℚ) (isHost : Bool)
    (now lastColl speed : ℚ) (pp : PadInfo) (isPlayer1 : Bool)
    (np d : Vec3) : Option (Vec3 × Vec3 × ℚ) :=
  if now - lastColl < COLLISION_COOLDOWN then none
  else
    let paddleZ := pp.z
    let paddleX := pp.x
    let paddleHalfWidth := PADDLE_WIDTH / 2
    let paddleHalfDepth := PADDLE_DEPTH / 2
    let collisionBuffer := if isHost then COLLISION_BUFFER * (6/5) else COLLISION_BUFFER
    let withinX := |np.x - paddleX| ≤ paddleHalfWidth + BALL_RADIUS + collisionBuffer
    let withinZ := |np.z - paddleZ| ≤ paddleHalfDepth + BALL_RADIUS + collisionBuffer
    let ballVelocityZ := d.z * speed
    let isApproaching :=
      if isPlayer1 then ballVelocityZ < 0 ∧ np.z > paddleZ - paddleHalfDepth
      else ballVelocityZ > 0 ∧ np.z < paddleZ + paddleHalfDepth
    if withinX ∧ withinZ ∧ isApproaching then
      let relativeX := np.x - paddleX
      let normalizedHitPos := relativeX / (paddleHalfWidth + BALL_RADIUS)
      let hitPosition := three_clamp normalizedHitPos (-(19/20)) (19/20)
      let paddleVelocityInfluence := (pp.velocity.getD 0) * (3/10)
      let maxBounceAngle : ℚ := 3/4
      let bounceAngle := hitPosition * maxBounceAngle + paddleVelocityInfluence
      let zDirection : ℚ := if isPlayer1 then 1 else -1
      let newDirection := paddleBounceDir (sinO bounceAngle) (cosO bounceAngle) zDirection
      let pushDistance := paddleHalfDepth + BALL_RADIUS + collisionBuffer * 3
      let np' : Vec3 := ⟨np.x, np.y, paddleZ + zDirection * pushDistance⟩
      some (newDirection, np', paddleBoostSpeed speed (pp.velocity.getD 0))
    else none

/-- The per-sub-step displacement: direction components scaled by
`speed * stepDelta * 60`, then clamped to length `maxMove = 0.1` via
`normalize().multiplyScalar(0.1)` (the y component is 0 throughout).
`sqrtO` stands for the square root inside `Vector3.length`. -/
def moveVec (sqrtO : ℚ → ℚ) (d : Vec3) (speed stepDelta : ℚ) : ℚ × ℚ :=
  let mx := d.x * speed * stepDelta * 60
  let mz := d.z * speed * stepDelta * 60
  let len := sqrtO (mx * mx + mz * mz)
  if len > 1/10 then (mx * ((1/10) / len), mz * ((1/10) / len)) else (mx, mz)

/-- The loop state of the sub-step `for` loop: committed ball position
(`ballRef.current.position`), the value last passed to
`setBallDirection` (the direction the NEXT frame will use; the closure
variable keeps the frame-initial direction), `ballSpeedRef.current`,
`lastCollisionTime.current`, and the emits so far. -/
structure SubSt where
  pos : Vec3
  pend : Vec3
  speed : ℚ
  lastColl : ℚ
  emits : List CEmit
deriving DecidableEq, Repr

/-- The tail of one sub-step iteration (`if (collisionOccurred) ... break`
vs `position.copy(nextPosition)`): on a collision the state keeps the OLD
committed position, adopts the new pending direction / speed / cooldown
stamp, and appends the out-of-band `ballUpdate` (carrying the mutated
candidate position, the stale closure direction and the new speed); with
no collision only the position is committed. -/
def substepFinish (roomId : String) (dirC : Vec3) (st : SubSt)
    (np3 pend3 : Vec3) (sp3 lc3 : ℚ) (hit3 : Bool) : SubSt × Bool :=
  if hit3 then
    ({ st with
        pend := pend3
        speed := sp3
        lastColl := lc3
        emits := st.emits ++
          [CEmit.ballUpdate roomId ⟨np3.x, np3.y, np3.z, dirC, some sp3⟩] },
     true)
  else
    ({ st with pos := np3 }, false)

/-- One iteration of the sub-step loop.  `dirC` is the frame-initial
`ballDirection` closure value.  On any collision the (possibly mutated)
candidate position, the stale closure direction `dirC` and the updated
speed are emitted and the loop stops WITHOUT committing the position
(`break` precedes `ballRef.current.position.copy(nextPosition)`); with no
collision the candidate position is committed.  A paddle hit stamps the
cooldown, so the second paddle check of the same sub-step (and paddle
checks of the following 100 ms) return `none`. -/
def substep (sinO cosO sqrtO : ℚ → ℚ) (isHost : Bool) (roomId : String)
    (now stepDelta : ℚ) (dirC : Vec3) (p1x oppX : ℚ) (st : SubSt) :
    SubSt × Bool :=
  let m := moveVec sqrtO dirC st.speed stepDelta
  let np0 : Vec3 := ⟨st.pos.x + m.1, st.pos.y, st.pos.z + m.2⟩
  let w := checkWallCollision np0 dirC
  let np1 := (w.map Prod.fst).getD np0
  let pend1 := (w.map Prod.snd).getD st.pend
  let sp1 := if w.isSome then wallDampSpeed st.speed else st.speed
  let hit1 := w.isSome
  let r1 := checkPaddleCollision sinO cosO isHost now st.lastColl sp1
    ⟨p1x, PADDLE_HEIGHT / 2, -COURT_LENGTH / 2 + 1, none⟩ true np1 dirC
  let np2 := (r1.map (fun r => r.2.1)).getD np1
  let pend2 := (r1.map (fun r => r.1)).getD pend1
  let sp2 := (r1.map (fun r => r.2.2)).getD sp1
  let lc2 := if r1.isSome then now else st.lastColl
  let hit2 := hit1 || r1.isSome
  let r2 := checkPaddleCollision sinO cosO isHost now lc2 sp2
    ⟨oppX, PADDLE_HEIGHT / 2, COURT_LENGTH / 2 - 1, none⟩ false np2 dirC
  let np3 := (r2.map (fun r => r.2.1)).getD np2
  let pend3 := (r2.map (fun r => r.1)).getD pend2
  let sp3 := (r2.map (fun r => r.2.2)).getD sp2
  let lc3 := if r2.isSome then now else lc2
  let hit3 := hit2 || r2.isSome
  substepFinish roomId dirC st np3 pend3 sp3 lc3 hit3

/-- The sub-step `for` loop with its `break` (`stop = true` ends the
loop early). -/
def runSubsteps (sinO cosO sqrtO : ℚ → ℚ) (isHost : Bool) (roomId : String)
    (now stepDelta : ℚ) (dirC : Vec3) (p1x oppX : ℚ) :
    ℕ → SubSt → SubSt
  | 0, st => st
  | n + 1, st =>
    let r := substep sinO cosO sqrtO isHost roomId now stepDelta dirC p1x oppX st
    if r.2 then r.1 else runSubsteps sinO cosO sqrtO isHost roomId now stepDelta dirC p1x oppX n r.1

/-- `handleScoring(scorer)` (`p1Scores = true` means `'player1'`): bumps
the scorer's counter once, emits the authoritative `scoreUpdate`, resets
ball position and speed, recenters the local paddle (emitting the reset
`paddleMove`), and raises `scoreCooldown` (the countdown timers then run
outside the frame loop; see `finishCountdown`). -/
def handleScoringStep (isHost : Bool) (roomId : String) (p1Scores : Bool)
    (c : ClientState) (pre : List CEmit) : ClientState × List CEmit :=
  let newScore :=
    if p1Scores then (c.score.1 + 1, c.score.2) else (c.score.1, c.score.2 + 1)
  ({ c with
      score := newScore
      lastScorer := some p1Scores
      ballPos := ⟨0, BALL_RADIUS, 0⟩
      speed := BALL_SPEED
      p1x := 0
      scoreCooldown := true },
   pre ++ [CEmit.scoreUpdate roomId newScore,
           CEmit.paddleMove roomId 0 (PADDLE_HEIGHT / 2)
             (if isHost then -COURT_LENGTH / 2 + 1 else COURT_LENGTH / 2 - 1) none])

/-- The host ball-physics block of `useFrame` (sub-step loop, the rate-
limited regular sync, then the baseline scoring check).  `p1x` is the
local paddle x after this frame's movement.  The scoring check runs ONCE
per frame, after the loop, on the committed position. -/
def ballPhase (sinO cosO sqrtO : ℚ → ℚ) (isHost : Bool) (roomId : String)
    (now delta : ℚ) (c : ClientState) (p1x : ℚ) : ClientState × List CEmit :=
  let stepDelta := delta / (COLLISION_CHECK_STEPS : ℚ)
  let st := runSubsteps sinO cosO sqrtO isHost roomId now stepDelta c.dir p1x c.oppX
    COLLISION_CHECK_STEPS ⟨c.ballPos, c.dir, c.speed, c.lastCollisionTime, []⟩
  let doSync := now - c.lastSyncTime ≥ SYNC_RATE
  let syncEmits := if doSync then
      [CEmit.ballUpdate roomId ⟨st.pos.x, st.pos.y, st.pos.z, c.dir, some st.speed⟩]
    else []
  let c1 := { c with
    ballPos := st.pos
    dir := st.pend
    speed := st.speed
    lastCollisionTime := st.lastColl
    lastSyncTime := if doSync then now else c.lastSyncTime }
  if st.pos.z ≤ -(COURT_LENGTH / 2) - BALL_RADIUS then
    handleScoringStep isHost roomId false c1 (st.emits ++ syncEmits)
  else if st.pos.z ≥ COURT_LENGTH / 2 + BALL_RADIUS then
    handleScoringStep isHost roomId true c1 (st.emits ++ syncEmits)
  else (c1, st.emits ++ syncEmits)

/-- The clamped paddle target of this frame (arrow keys are
rotation-aware: the host's view is rotated by π). -/
def paddleTarget (isHost left right : Bool) (delta p1x : ℚ) : ℚ :=
  let moveAmount := PADDLE_SPEED * delta * 60
  let t1 := if left then p1x + (if isHost then -moveAmount else moveAmount) else p1x
  let t2 := if right then t1 + (if isHost then moveAmount else -moveAmount) else t1
  three_clamp t2 (-COURT_WIDTH / 2 + PADDLE_WIDTH / 2) (COURT_WIDTH / 2 - PADDLE_WIDTH / 2)

/-- The paddle-movement block of `useFrame`: clamp the target, compute the
frame velocity, commit the new x and emit the per-frame `paddleMove`. -/
def paddleStep (isHost left right : Bool) (roomId : String) (delta : ℚ)
    (c : ClientState) : ClientState × List CEmit :=
  let t := paddleTarget isHost left right delta c.p1x
  let vel := (t - c.p1x) / delta
  ({ c with p1x := t },
   [CEmit.paddleMove roomId t (PADDLE_HEIGHT / 2)
      (if isHost then -COURT_LENGTH / 2 + 1 else COURT_LENGTH / 2 - 1) (some vel)])

/-- One `useFrame` callback invocation (`now` in ms): early-outs when the
game is not in `playing` state or during the score cooldown (no paddle
movement, no ball physics, no emits); otherwise clamps the frame delta to
1/60 s, moves the paddle, and — on the host only — runs the ball physics. -/
def useFrameTick (sinO cosO sqrtO : ℚ → ℚ) (isHost left right : Bool)
    (roomId : String) (now : ℚ) (c : ClientState) : ClientState × List CEmit :=
  if c.gameStatus ≠ GStatus.playing then (c, [])
  else if c.scoreCooldown then (c, [])
  else
    let currentTime := now * (1/1000)
    let delta := min (currentTime - c.lastFrameTime) (1/60)
    let c0 := { c with lastFrameTime := currentTime }
    let pr := paddleStep isHost left right roomId delta c0
    if isHost then
      let br := ballPhase sinO cosO sqrtO isHost roomId now delta pr.1 pr.1.p1x
      (br.1, pr.2 ++ br.2)
    else (pr.1, pr.2)

/-- The final countdown timer of `startCountdown` (fires `SCORE_COOLDOWN`
ms after scoring): clears the countdown and the cooldown; on the host it
also sets the serve direction (`serveDir` stands for the normalized
random serve vector) and emits the serve ball state. -/
def finishCountdown (isHost : Bool) (roomId : String) (serveDir : Vec3)
    (c : ClientState) : ClientState × List CEmit :=
  if isHost then
    ({ c with scoreCooldown := false, dir := serveDir },
     [CEmit.ballUpdate roomId ⟨0, BALL_RADIUS, 0, serveDir, some BALL_SPEED⟩])
  else
    ({ c with scoreCooldown := false }, [])

/-- Squared magnitude of a direction vector (`1` iff the vector is unit
length; exact in ℚ, so no floating tolerance is needed). -/
def dirSq (v : Vec3) : ℚ :=
  v.x * v.x + v.y * v.y + v.z * v.z

/-- Whether a client emit is a `scoreUpdate`. -/
def isScoreUpd : CEmit → Bool
  | CEmit.scoreUpdate _ _ => true
  | _ => false

/-! ## Association-list lemmas -/

theorem alGet_alSet_self {α : Type} (l : List (String × α)) (k : String) (v : α) :
    alGet (alSet l k v) k = some v := by
  induction l with
  | nil => simp [alGet, alSet]
  | cons e t ih =>
    by_cases h : e.1 = k
    · simp [alSet, alGet, h]
    · simp [alSet, alGet, h, ih]

theorem alGet_alSet_ne {α : Type} (l : List (String × α)) (k k' : String) (v : α)
    (h : k' ≠ k) : alGet (alSet l k v) k' = alGet l k' := by
  induction l with
  | nil => simp [alGet, alSet, Ne.symm h]
  | cons e t ih =>
    by_cases he : e.1 = k
    · simp [alSet, alGet, he, Ne.symm h]
    · simp [alSet, alGet, he, ih]

theorem mem_alSet {α : Type} {l : List (String × α)} {k p : String} {v pos : α}
    (h : (p, pos) ∈ alSet l k v) : (p, pos) ∈ l ∨ (p = k ∧ pos = v) := by
  induction l with
  | nil =>
    right
    have h' : (p, pos) = (k, v) := by simpa [alSet] using h
    exact ⟨congrArg Prod.fst h', congrArg Prod.snd h'⟩
  | cons e t ih =>
    by_cases he : e.1 = k
    · have h' : (p, pos) ∈ (k, v) :: t := by simpa [alSet, he] using h
      rcases List.mem_cons.mp h' with h1 | h2
      · exact Or.inr ⟨congrArg Prod.fst h1, congrArg Prod.snd h1⟩
      · exact Or.inl (List.mem_cons_of_mem _ h2)
    · have h' : (p, pos) ∈ e :: alSet t k v := by simpa [alSet, he] using h
      rcases List.mem_cons.mp h' with h1 | h2
      · refine Or.inl ?_
        rw [List.mem_cons]
        exact Or.inl h1
      · rcases ih h2 with hl | hr
        · exact Or.inl (List.mem_cons_of_mem _ hl)
        · exact Or.inr hr

theorem alGet_mem {α : Type} {l : List (String × α)} {k : String} {v : α}
    (h : alGet l k = some v) : (k, v) ∈ l := by
  induction l with
  | nil => simp [alGet] at h
  | cons e t ih =>
    by_cases he : e.1 = k
    · have h' : e.2 = v := by simpa [alGet, he] using h
      rw [List.mem_cons]
      left
      rw [← he, ← h']
    · have h' : alGet t k = some v := by simpa [alGet, he] using h
      exact List.mem_cons_of_mem _ (ih h')

theorem alGet_none_of_key_absent {α : Type} {l : List (String × α)} {k : String}
    (h : k ∉ l.map Prod.fst) : alGet l k = none := by
  induction l with
  | nil => rfl
  | cons e t ih =>
    rw [List.map_cons] at h
    have h1 : ¬ e.1 = k := by
      intro he
      apply h
      rw [← he]
      exact List.mem_cons_self _ _
    have h2 : k ∉ t.map Prod.fst := fun hm => h (List.mem_cons_of_mem _ hm)
    simp [alGet, h1, ih h2]

theorem alGet_filter_none {α : Type} {l : List (String × α)} {k : String} {r : α}
    (q : α → Bool) (hnd : (l.map Prod.fst).Nodup) (h : alGet l k = some r)
    (hq : q r = false) : alGet (l.filter (fun e => q e.2)) k = none := by
  induction l with
  | nil => simp [alGet] at h
  | cons e t ih =>
    rw [List.map_cons, List.nodup_cons] at hnd
    by_cases he : e.1 = k
    · have hr : e.2 = r := by simpa [alGet, he] using h
      have hkeys : k ∉ (t.filter (fun x => q x.2)).map Prod.fst := by
        intro hmem
        apply hnd.1
        rw [he]
        exact List.map_subset Prod.fst (List.filter_sublist t).subset hmem
      have hqe : q e.2 = false := by rw [hr]; exact hq
      rw [List.filter_cons]
      simp [hqe, alGet_none_of_key_absent hkeys]
    · have h' : alGet t k = some r := by simpa [alGet, he] using h
      rw [List.filter_cons]
      by_cases hqe : q e.2 = true
      · simp [hqe, alGet, he, ih hnd.2 h']
      · simp [hqe, ih hnd.2 h']

/-! ## C1: ball updates are host-only and relayed to the peer only -/

/-- C1: for a registered room with roster `[h, g]`, a `ballUpdate` whose
sender is not participant index 0 leaves the registry (hence the stored
ball state) unchanged, reports no error and relays nothing; a `ballUpdate`
from participant index 0 stores the payload as the room's ball state and
relays exactly one `ballSync` to the other participant — never to the
sender. -/
theorem ballUpdate_host_only (rs : Registry) (roomId : String) (room : GameRoom)
    (h g s : String) (payload : Ball)
    (hget : alGet rs roomId = some room) (hpl : room.players = [h, g])
    (hne : h ≠ g) :
    (s ≠ h → handleBallUpdate rs s roomId payload = (rs, [])) ∧
    handleBallUpdate rs h roomId payload =
      (alSet rs roomId
        { room with gameState := { room.gameState with ball := payload } },
       [⟨g, SMsg.ballSync payload⟩]) := by
  constructor
  · intro hs
    simp [handleBallUpdate, hget, hpl, (Ne.symm hs)]
  · have hgh : g ≠ h := Ne.symm hne
    simp [handleBallUpdate, hget, hpl, relayTargets, hgh, List.dedup_cons_of_not_mem]

/-- Witness for C1 at a concrete two-player room. -/
def w1room : GameRoom :=
  { id := "R"
    players := ["h", "g"]
    gameState :=
      { createGameState with paddles := [("h", ⟨0, 3/20, -9⟩), ("g", ⟨0, 3/20, 9⟩)] }
    isActive := true
    readyPlayers := [] }

/-- The one-room registry used by the C1 witness. -/
def w1rs : Registry := [("R", w1room)]

/-- The ball payload used by the C1 witness. -/
def w1ball : Ball := ⟨1, 11/50, 2, ⟨0, 0, 1⟩, some (1/5)⟩

/-- C1 witness: the guest's update is dropped silently; the host's update
is stored and relayed to the guest only. -/
theorem ballUpdate_host_only_w :
    handleBallUpdate w1rs "g" "R" w1ball = (w1rs, []) ∧
    handleBallUpdate w1rs "h" "R" w1ball =
      (alSet w1rs "R"
        { w1room with gameState := { w1room.gameState with ball := w1ball } },
       [⟨"g", SMsg.ballSync w1ball⟩]) :=
  ⟨(ballUpdate_host_only w1rs "R" w1room "h" "g" "g" w1ball rfl rfl
      (by decide)).1 (by decide),
   (ballUpdate_host_only w1rs "R" w1room "h" "g" "g" w1ball rfl rfl
      (by decide)).2⟩

/-! ## C4: the readiness barrier installs the canonical start-of-round state -/

/-- C4: when a readiness signal from a participant of an active
two-player room makes the ready set reach the roster size, the room's
`GameState` is replaced by the canonical start-of-round layout — ball at
the court origin with the zero direction vector (no velocity pending the
first serve), both paddles centered, score `(0, 0)` — and the fresh state
is broadcast to both participants in one `allPlayersReady` message each. -/
theorem ready_barrier_resets (rs : Registry) (roomId : String) (room : GameRoom)
    (h g s : String) (hget : alGet rs roomId = some room)
    (hact : room.isActive = true) (hpl : room.players = [h, g]) (hne : h ≠ g)
    (hmem : s ∈ room.players)
    (hfull : (insertReady room.readyPlayers s).length = room.players.length) :
    handleReady rs s roomId =
      (alSet rs roomId
        { room with readyPlayers := insertReady room.readyPlayers s,
                    gameState := readyResetState room.players },
       [⟨h, SMsg.allPlayersReady (readyResetState [h, g]) [h, g]⟩,
        ⟨g, SMsg.allPlayersReady (readyResetState [h, g]) [h, g]⟩]) ∧
    readyResetState [h, g] =
      { ball := { x := 0, y := 11/50, z := 0, direction := ⟨0, 0, 0⟩, speed := none }
        paddles := [(h, ⟨0, 3/20, 0⟩), (g, ⟨0, 3/20, 0⟩)]
        score := (0, 0) } := by
  have hc : room.players.contains s = true := by
    rw [hpl] at hmem ⊢
    simp at hmem ⊢
    tauto
  have hpads : readyResetState [h, g] =
      { ball := { x := 0, y := 11/50, z := 0, direction := ⟨0, 0, 0⟩, speed := none }
        paddles := [(h, ⟨0, 3/20, 0⟩), (g, ⟨0, 3/20, 0⟩)]
        score := (0, 0) } := by
    simp [readyResetState, alSet, hne]
  refine ⟨?_, hpads⟩
  have hmem2 : s = h ∨ s = g := by
    rw [hpl] at hmem
    simpa using hmem
  simp [handleReady, hget, hact, hc, hfull, hpl, roomTargets,
    List.dedup_cons_of_not_mem, hne]
  tauto

/-- The room of the C4 witness: active, host already ready. -/
def w4room : GameRoom :=
  { id := "R"
    players := ["h", "g"]
    gameState :=
      { createGameState with paddles := [("h", ⟨0, 3/20, -9⟩), ("g", ⟨0, 3/20, 9⟩)] }
    isActive := true
    readyPlayers := ["h"] }

/-- The one-room registry of the C4 witness. -/
def w4rs : Registry := [("R", w4room)]

/-- C4 witness: the guest's `ready` completes the barrier and installs the
canonical reset state. -/
theorem ready_barrier_resets_w :
    handleReady w4rs "g" "R" =
      (alSet w4rs "R"
        { w4room with readyPlayers := insertReady w4room.readyPlayers "g",
                      gameState := readyResetState w4room.players },
       [⟨"h", SMsg.allPlayersReady (readyResetState ["h", "g"]) ["h", "g"]⟩,
        ⟨"g", SMsg.allPlayersReady (readyResetState ["h", "g"]) ["h", "g"]⟩]) ∧
    readyResetState ["h", "g"] =
      { ball := { x := 0, y := 11/50, z := 0, direction := ⟨0, 0, 0⟩, speed := none }
        paddles := [("h", ⟨0, 3/20, 0⟩), ("g", ⟨0, 3/20, 0⟩)]
        score := (0, 0) } :=
  ready_barrier_resets w4rs "R" w4room "h" "g" "g" rfl rfl rfl (by decide)
    (by decide) (by decide)

/-! ## C5: start requests are gated on the host and a full room -/

/-- C5: for a registered room, a start request with fewer than two
participants fails with the not-enough-players error to the requester
only and changes nothing; one from a sender who is not participant
index 0 of a two-player room fails with the unauthorized error to the
requester only and changes nothing; one from the host of a two-player
room activates the room, clears the ready set, and notifies each
participant with its own role flag and index. -/
theorem startGame_host_gate (rs : Registry) (roomId : String) (room : GameRoom)
    (s g : String) (hget : alGet rs roomId = some room) :
    (room.players.length < 2 →
      handleStartGame rs s roomId =
        (rs, [⟨s, SMsg.errorMsg "Not enough players to start game"⟩])) ∧
    (room.players.length = 2 → room.players[0]? ≠ some s →
      handleStartGame rs s roomId =
        (rs, [⟨s, SMsg.errorMsg "Only host can start the game"⟩])) ∧
    (room.players = [s, g] →
      handleStartGame rs s roomId =
        (alSet rs roomId { room with isActive := true, readyPlayers := [] },
         [⟨s, SMsg.gameStart room.gameState [s, g] true 0⟩,
          ⟨g, SMsg.gameStart room.gameState [s, g] false 1⟩])) := by
  refine ⟨?_, ?_, ?_⟩
  · intro hlt
    have hne2 : room.players.length ≠ 2 := by omega
    simp [handleStartGame, hget, hne2]
  · intro hl hs
    have h0 : room.players[0]? = some (room.players.get ⟨0, by omega⟩) := by
      rw [List.getElem?_eq_getElem (by omega)]
      simp
    rw [h0] at hs
    have hs' : ¬ (room.players.get ⟨0, by omega⟩ = s) := fun he => hs (congrArg some he)
    rw [List.get_eq_getElem] at hs'
    simp [handleStartGame, hget, hl, h0, hs']
  · intro hpl
    simp [handleStartGame, hget, hpl, List.enum, List.enumFrom]

/-- The single-player room of the C5 witness's failure case. -/
def w5aroom : GameRoom := freshRoom "h" "R"

/-- Registry holding only the single-player room. -/
def w5ars : Registry := [("R", w5aroom)]

/-- The two-player room of the C5 witness. -/
def w5room : GameRoom :=
  { id := "R2"
    players := ["h", "g"]
    gameState :=
      { createGameState with paddles := [("h", ⟨0, 3/20, -9⟩), ("g", ⟨0, 3/20, 9⟩)] }
    isActive := false
    readyPlayers := [] }

/-- Registry holding only the two-player room. -/
def w5rs : Registry := [("R2", w5room)]

/-- C5 witness: under-populated start fails, guest start fails, host
start activates the room and notifies both with their roles. -/
theorem startGame_host_gate_w :
    handleStartGame w5ars "h" "R" =
      (w5ars, [⟨"h", SMsg.errorMsg "Not enough players to start game"⟩]) ∧
    handleStartGame w5rs "g" "R2" =
      (w5rs, [⟨"g", SMsg.errorMsg "Only host can start the game"⟩]) ∧
    handleStartGame w5rs "h" "R2" =
      (alSet w5rs "R2" { w5room with isActive := true, readyPlayers := [] },
       [⟨"h", SMsg.gameStart w5room.gameState ["h", "g"] true 0⟩,
        ⟨"g", SMsg.gameStart w5room.gameState ["h", "g"] false 1⟩]) :=
  ⟨(startGame_host_gate w5ars "R" w5aroom "h" "x" rfl).1 (by decide),
   (startGame_host_gate w5rs "R2" w5room "g" "x" rfl).2.1 (by decide) (by decide),
   (startGame_host_gate w5rs "R2" w5room "h" "g" rfl).2.2 rfl⟩

/-! ## C10: join performs no identity check, so a host can join its own room -/

/-- C10: for a room with the single participant `p`, a join request by
`p` itself succeeds: the roster becomes `[p, p]` (the same connection id
in both slots), `p`'s single paddle entry is overwritten with the guest
baseline `{x: 0, y: 0.15, z: 9}`, and the join is acknowledged with a
`playerJoined` broadcast — no check that the joiner is distinct from the
existing participants is made anywhere on this path. -/
theorem joinRoom_self_join (rs : Registry) (roomId : String) (room : GameRoom)
    (p : String) (pp : Vec3) (hget : alGet rs roomId = some room)
    (hpl : room.players = [p]) (hpads : room.gameState.paddles = [(p, pp)]) :
    handleJoinRoom rs p roomId =
      (alSet rs roomId
        { room with players := [p, p],
                    gameState := { room.gameState with paddles := [(p, ⟨0, 3/20, 9⟩)] } },
       [⟨p, SMsg.playerJoined [p, p]
          { room.gameState with paddles := [(p, ⟨0, 3/20, 9⟩)] }⟩]) := by
  simp [handleJoinRoom, hget, hpl, hpads, alSet, roomTargets, List.dedup_cons_of_mem]

/-- The single-player room of the C10 witness. -/
def w10room : GameRoom := freshRoom "p" "R"

/-- Registry holding only the C10 witness room. -/
def w10rs : Registry := [("R", w10room)]

/-- C10 witness: the creator of a fresh room joins its own room; the
roster becomes `["p", "p"]` and the single paddle entry now holds the
guest baseline. -/
theorem joinRoom_self_join_w :
    handleJoinRoom w10rs "p" "R" =
      (alSet w10rs "R"
        { w10room with players := ["p", "p"],
                       gameState := { w10room.gameState with
                         paddles := [("p", ⟨0, 3/20, 9⟩)] } },
       [⟨"p", SMsg.playerJoined ["p", "p"]
          { w10room.gameState with paddles := [("p", ⟨0, 3/20, 9⟩)] }⟩]) :=
  joinRoom_self_join w10rs "R" w10room "p" ⟨0, 3/20, -9⟩ rfl rfl rfl

/-! ## C6: createRoom registers the generated code unconditionally -/

/-- A two-player room already registered under the code `"AAAAAA"`. -/
def c6room : GameRoom :=
  { id := "AAAAAA"
    players := ["h", "g"]
    gameState :=
      { createGameState with paddles := [("h", ⟨0, 3/20, -9⟩), ("g", ⟨0, 3/20, 9⟩)] }
    isActive := true
    readyPlayers := [] }

/-- Registry with the occupied code `"AAAAAA"` and a second room. -/
def c6rs : Registry := [("AAAAAA", c6room), ("BBBBBB", freshRoom "x" "BBBBBB")]

/-- C6 counterexample: when `generateRoomId` returns a code that is
already registered, `createRoom` does NOT regenerate — it overwrites the
existing room's registry entry with the fresh single-player room, so the
active two-player room under `"AAAAAA"` is destroyed. -/
theorem createRoom_collision_overwrites_cex :
    alGet (handleCreateRoom c6rs "q" "AAAAAA").1 "AAAAAA" ≠ some c6room ∧
    (alGet (handleCreateRoom c6rs "q" "AAAAAA").1 "AAAAAA").map GameRoom.players =
      some ["q"] := by
  constructor
  · intro h
    simp [handleCreateRoom, alSet, alGet, c6rs, c6room, freshRoom, createGameState] at h
  · rfl

/-- C6 amended: `createRoom` writes `freshRoom` under the generated code
unconditionally (`rooms.set` with no uniqueness check): the entry at the
generated code is the fresh room afterwards — overwriting any room that
already held that code — every other key is untouched, and the creator is
acknowledged.  The code is unique among active rooms only when the
generated code happens to differ from every registered one; no
regeneration exists. -/
theorem createRoom_unconditional_set (rs : Registry) (sid genId k : String) :
    alGet (handleCreateRoom rs sid genId).1 genId = some (freshRoom sid genId) ∧
    (k ≠ genId → alGet (handleCreateRoom rs sid genId).1 k = alGet rs k) ∧
    (handleCreateRoom rs sid genId).2 = [⟨sid, SMsg.roomCreated genId [sid]⟩] :=
  ⟨alGet_alSet_self rs genId (freshRoom sid genId),
   fun hk => alGet_alSet_ne rs genId k (freshRoom sid genId) hk,
   rfl⟩

/-- C6 witness: on the collision registry, the colliding code now maps to
the fresh room and the unrelated room is untouched. -/
theorem createRoom_unconditional_set_w :
    alGet (handleCreateRoom c6rs "q" "AAAAAA").1 "AAAAAA" =
      some (freshRoom "q" "AAAAAA") ∧
    alGet (handleCreateRoom c6rs "q" "AAAAAA").1 "BBBBBB" = alGet c6rs "BBBBBB" ∧
    (handleCreateRoom c6rs "q" "AAAAAA").2 =
      [⟨"q", SMsg.roomCreated "AAAAAA" ["q"]⟩] :=
  ⟨(createRoom_unconditional_set c6rs "q" "AAAAAA" "BBBBBB").1,
   (createRoom_unconditional_set c6rs "q" "AAAAAA" "BBBBBB").2.1 (by decide),
   (createRoom_unconditional_set c6rs "q" "AAAAAA" "BBBBBB").2.2⟩

/-! ## C7: disconnect teardown and the fate of stale messages -/

/-- The two-player room of the C7 scenario. -/
def c7room : GameRoom :=
  { id := "R"
    players := ["h", "g"]
    gameState :=
      { createGameState with paddles := [("h", ⟨0, 3/20, -9⟩), ("g", ⟨0, 3/20, 9⟩)] }
    isActive := true
    readyPlayers := [] }

/-- The one-room registry of the C7 scenario. -/
def c7rs : Registry := [("R", c7room)]

/-- A ball payload for the C7 stale-message scenario. -/
def c7ball : Ball := ⟨0, 11/50, 0, ⟨0, 0, 1⟩, some (1/5)⟩

/-- C7 counterexample: after the guest's disconnect removes the room, a
paddle update (and likewise a ball update) referencing the stale room id
emits NOTHING — the sender receives no `RoomNotFound` (or any) failure
signal, contradicting the claim that every subsequent message, including
paddle, ball and score updates, yields a RoomNotFound failure signal. -/
theorem stale_update_silent_cex :
    alGet (handleDisconnect c7rs "g").1 "R" = none ∧
    (handlePaddleMove (handleDisconnect c7rs "g").1 "h" "R" ⟨0, 3/20, -9⟩).2 = [] ∧
    (handleBallUpdate (handleDisconnect c7rs "g").1 "h" "R" c7ball).2 = [] := by
  refine ⟨rfl, rfl, rfl⟩

/-- C7 amended: when either participant of a registered two-player room
disconnects, the room is removed from the registry (assuming the JS-Map
invariant that registry keys are unique) and the other participant is
sent `playerDisconnected`.  A subsequent message referencing the removed
room id is a no-op on state and never a crash, but only `joinRoom`,
`startGame` and `ready` answer with a Room-not-found error to the sender;
`paddleMove`, `ballUpdate` and `scoreUpdate` are silently dropped with no
failure signal at all. -/
theorem disconnect_teardown_stale_fate (rs : Registry) (roomId : String)
    (room : GameRoom) (sid other : String) (pos : Vec3) (b : Ball) (sc : ℕ × ℕ) :
    ((rs.map Prod.fst).Nodup → alGet rs roomId = some room →
      room.players = [sid, other] ∨ room.players = [other, sid] → other ≠ sid →
      alGet (handleDisconnect rs sid).1 roomId = none ∧
      Emit.mk other SMsg.playerDisconnected ∈ (handleDisconnect rs sid).2) ∧
    (alGet rs roomId = none →
      handlePaddleMove rs sid roomId pos = (rs, []) ∧
      handleBallUpdate rs sid roomId b = (rs, []) ∧
      handleScoreUpdate rs sid roomId sc = (rs, []) ∧
      handleJoinRoom rs sid roomId = (rs, [⟨sid, SMsg.errorMsg "Room not found"⟩]) ∧
      handleStartGame rs sid roomId = (rs, [⟨sid, SMsg.errorMsg "Room not found"⟩]) ∧
      handleReady rs sid roomId = (rs, [⟨sid, SMsg.errorMsg "Room not found"⟩])) := by
  constructor
  · intro hnd hget hpl hne
    constructor
    · show alGet (rs.filter (fun e => !(e.2.players.contains sid))) roomId = none
      refine alGet_filter_none (fun r => !(r.players.contains sid)) hnd hget ?_
      rcases hpl with hpl | hpl <;> simp [hpl]
    · have hmem : (roomId, room) ∈ rs.filter (fun e => e.2.players.contains sid) := by
        rw [List.mem_filter]
        refine ⟨alGet_mem hget, ?_⟩
        rcases hpl with hpl | hpl <;> simp [hpl]
      refine List.mem_flatMap.mpr ⟨(roomId, room), hmem, ?_⟩
      rcases hpl with hpl | hpl <;>
        simp [hpl, hne, List.dedup_cons_of_not_mem]
  · intro h
    refine ⟨?_, ?_, ?_, ?_, ?_, ?_⟩ <;>
      simp [handlePaddleMove, handleBallUpdate, handleScoreUpdate, handleJoinRoom,
        handleStartGame, handleReady, h]

/-- C7 witness: the concrete teardown removes the room and notifies the
host; on an empty registry every stale message behaves as the amended
claim states. -/
theorem disconnect_teardown_stale_fate_w :
    (alGet (handleDisconnect c7rs "g").1 "R" = none ∧
     Emit.mk "h" SMsg.playerDisconnected ∈ (handleDisconnect c7rs "g").2) ∧
    (handlePaddleMove [] "h" "R" ⟨0, 3/20, -9⟩ = ([], []) ∧
     handleBallUpdate [] "h" "R" c7ball = ([], []) ∧
     handleScoreUpdate [] "h" "R" (1, 0) = ([], []) ∧
     handleJoinRoom [] "h" "R" = ([], [⟨"h", SMsg.errorMsg "Room not found"⟩]) ∧
     handleStartGame [] "h" "R" = ([], [⟨"h", SMsg.errorMsg "Room not found"⟩]) ∧
     handleReady [] "h" "R" = ([], [⟨"h", SMsg.errorMsg "Room not found"⟩])) :=
  ⟨(disconnect_teardown_stale_fate c7rs "R" c7room "g" "h" ⟨0, 3/20, -9⟩ c7ball
      (1, 0)).1 (by decide) rfl (Or.inr rfl) (by decide),
   (disconnect_teardown_stale_fate ([] : Registry) "R" c7room "h" "x" ⟨0, 3/20, -9⟩
      c7ball (1, 0)).2 rfl⟩

/-! ## C2: the ball-direction unit-length invariant -/

/-- Active two-player room with the host already ready (C2 scenario). -/
def c2room : GameRoom :=
  { id := "R"
    players := ["h", "g"]
    gameState :=
      { createGameState with paddles := [("h", ⟨0, 3/20, -9⟩), ("g", ⟨0, 3/20, 9⟩)] }
    isActive := true
    readyPlayers := ["h"] }

/-- Registry of the C2 scenario. -/
def c2rs : Registry := [("R", c2room)]

/-- C2 counterexample: the readiness reset stores the ZERO direction
vector — squared magnitude 0, not 1 within any floating-point tolerance —
so the stored direction is not unit length after that operation. -/
theorem ready_reset_direction_not_unit_cex :
    (alGet (handleReady c2rs "g" "R").1 "R").map
      (fun r => dirSq r.gameState.ball.direction) = some 0 ∧ (0 : ℚ) ≠ 1 := by
  constructor
  · norm_num [handleReady, c2rs, c2room, alGet, alSet, insertReady,
      readyResetState, dirSq, roomTargets, createGameState]
  · norm_num

/-- C2 amended: the stored ball direction is unit after room creation;
join, start (which do not touch the ball) preserve it; a host ball update
stores exactly the payload, hence a unit direction whenever the host's
payload direction is unit; wall reflection in the host physics preserves
the squared magnitude (the direction's y component is 0 throughout), and
the paddle-bounce direction is unit whenever `sin² + cos² = 1`.  The one
exception the counterexample forces: the readiness reset stores the zero
vector (zero velocity pending the first serve), whose magnitude is 0. -/
theorem direction_unit_except_ready_reset (rs : Registry) (roomId : String)
    (room : GameRoom) (sid g genId : String) (payload : Ball)
    (np np2 d d2 : Vec3) (sv cv zdir : ℚ) :
    dirSq (freshRoom sid genId).gameState.ball.direction = 1 ∧
    (alGet rs roomId = some room → room.players.length < 2 →
      (alGet (handleJoinRoom rs sid roomId).1 roomId).map (fun r => r.gameState.ball) =
        some room.gameState.ball) ∧
    (alGet rs roomId = some room → room.players = [sid, g] →
      (alGet (handleStartGame rs sid roomId).1 roomId).map (fun r => r.gameState.ball) =
        some room.gameState.ball) ∧
    (alGet rs roomId = some room → room.players[0]? = some sid →
      (alGet (handleBallUpdate rs sid roomId payload).1 roomId).map
        (fun r => r.gameState.ball) = some payload) ∧
    dirSq (readyResetState room.players).ball.direction = 0 ∧
    (checkWallCollision np d = some (np2, d2) → d.y = 0 → dirSq d2 = dirSq d) ∧
    (sv * sv + cv * cv = 1 → zdir = 1 ∨ zdir = -1 →
      dirSq (paddleBounceDir sv cv zdir) = 1) := by
  refine ⟨?_, ?_, ?_, ?_, ?_, ?_, ?_⟩
  · simp [freshRoom, createGameState, dirSq]
  · intro hget hlt
    have hfull : ¬ (room.players.length ≥ 2) := by omega
    simp [handleJoinRoom, hget, hfull, alGet_alSet_self]
  · intro hget hpl
    simp [handleStartGame, hget, hpl, alGet_alSet_self]
  · intro hget h0
    simp [handleBallUpdate, hget, h0, alGet_alSet_self]
  · simp [readyResetState, dirSq]
  · intro hw hy
    rw [checkWallCollision] at hw
    split_ifs at hw with h1 h2
    · have h' := Option.some.inj hw
      have hd2 : d2 = ⟨-d.x, 0, d.z⟩ := (congrArg Prod.snd h').symm
      rw [hd2]
      simp [dirSq, hy]
    · have h' := Option.some.inj hw
      have hd2 : d2 = ⟨-d.x, 0, d.z⟩ := (congrArg Prod.snd h').symm
      rw [hd2]
      simp [dirSq, hy]
  · intro hsc hz
    rcases hz with hz | hz <;> simp [paddleBounceDir, dirSq, hz] <;> linarith [hsc]

/-- A fresh one-player room registry for the C2 witness's join case. -/
def c2joinrs : Registry := [("J", freshRoom "h" "J")]

/-- A unit-direction ball payload for the C2 witness. -/
def c2ball : Ball := ⟨1, 11/50, 2, ⟨3/5, 0, 4/5⟩, some (1/5)⟩

/-- C2 witness: creation stores a unit direction, a concrete join and
start leave the ball untouched, a host update stores the unit payload,
the concrete readiness reset stores magnitude 0, a concrete wall bounce
preserves the squared magnitude, and a 3-4-5 paddle bounce is unit. -/
theorem direction_unit_except_ready_reset_w :
    dirSq (freshRoom "h" "J").gameState.ball.direction = 1 ∧
    (alGet (handleJoinRoom c2joinrs "g" "J").1 "J").map (fun r => r.gameState.ball) =
      some (freshRoom "h" "J").gameState.ball ∧
    (alGet (handleStartGame c2rs "h" "R").1 "R").map (fun r => r.gameState.ball) =
      some c2room.gameState.ball ∧
    (alGet (handleBallUpdate c2rs "h" "R" c2ball).1 "R").map
      (fun r => r.gameState.ball) = some c2ball ∧
    dirSq (readyResetState c2room.players).ball.direction = 0 ∧
    dirSq (⟨-1, 0, 1⟩ : Vec3) = dirSq (⟨1, 0, 1⟩ : Vec3) ∧
    dirSq (paddleBounceDir (3/5) (4/5) (-1)) = 1 :=
  ⟨(direction_unit_except_ready_reset c2joinrs "J" (freshRoom "h" "J") "h" "g" "J"
      c2ball ⟨-5, 0, 0⟩ ⟨-107/25, 0, 0⟩ ⟨1, 0, 1⟩ ⟨-1, 0, 1⟩ (3/5) (4/5) (-1)).1,
   (direction_unit_except_ready_reset c2joinrs "J" (freshRoom "h" "J") "g" "x" "J"
      c2ball ⟨-5, 0, 0⟩ ⟨-107/25, 0, 0⟩ ⟨1, 0, 1⟩ ⟨-1, 0, 1⟩ (3/5) (4/5)
      (-1)).2.1 rfl (by decide),
   (direction_unit_except_ready_reset c2rs "R" c2room "h" "g" "J" c2ball
      ⟨-5, 0, 0⟩ ⟨-107/25, 0, 0⟩ ⟨1, 0, 1⟩ ⟨-1, 0, 1⟩ (3/5) (4/5) (-1)).2.2.1
      rfl rfl,
   (direction_unit_except_ready_reset c2rs "R" c2room "h" "g" "J" c2ball
      ⟨-5, 0, 0⟩ ⟨-107/25, 0, 0⟩ ⟨1, 0, 1⟩ ⟨-1, 0, 1⟩ (3/5) (4/5) (-1)).2.2.2.1
      rfl rfl,
   (direction_unit_except_ready_reset c2rs "R" c2room "h" "g" "J" c2ball
      ⟨-5, 0, 0⟩ ⟨-107/25, 0, 0⟩ ⟨1, 0, 1⟩ ⟨-1, 0, 1⟩ (3/5) (4/5) (-1)).2.2.2.2.1,
   (direction_unit_except_ready_reset c2rs "R" c2room "h" "g" "J" c2ball
      ⟨-5, 0, 0⟩ ⟨-107/25, 0, 0⟩ ⟨1, 0, 1⟩ ⟨-1, 0, 1⟩ (3/5) (4/5)
      (-1)).2.2.2.2.2.1
      (by norm_num [checkWallCollision, COURT_WIDTH, BALL_RADIUS, COLLISION_BUFFER]) rfl,
   (direction_unit_except_ready_reset c2rs "R" c2room "h" "g" "J" c2ball
      ⟨-5, 0, 0⟩ ⟨-107/25, 0, 0⟩ ⟨1, 0, 1⟩ ⟨-1, 0, 1⟩ (3/5) (4/5)
      (-1)).2.2.2.2.2.2 (by norm_num) (Or.inr rfl)⟩

/-! ## C3: the speed interval invariant -/

/-- The all-zero oracle used to instantiate `sinO` / `cosO` / `sqrtO` in
concrete runs that never reach a trig call: with it the per-sub-step
length test `len > 0.1` is `0 > 0.1 = false`, which agrees with the real
square root on the runs below (whose displacement per sub-step is 0.04,
also below the clamp). -/
def zeroOracle : ℚ → ℚ := fun _ => 0

/-- A reachable host state at serve speed: the canonical speed
`BALL_SPEED` (every serve and reset assigns exactly this), ball near the
left wall heading into it along the unit direction `(-3/5, 0, -4/5)`
(a 3-4-5 paddle-bounce direction), collision cooldown freshly stamped. -/
def c3state : ClientState :=
  { ballPos := ⟨-89/20, 11/50, 0⟩
    dir := ⟨-3/5, 0, -4/5⟩
    speed := 1/5
    score := (0, 0)
    gameStatus := GStatus.playing
    scoreCooldown := false
    lastScorer := none
    lastCollisionTime := 1000
    lastSyncTime := 1000
    lastFrameTime := 1 - 1/60
    p1x := 0
    oppX := 0 }

/-- C3 counterexample: one frame from the serve-speed state hits the left
wall; the wall-bounce dampening multiplies the speed by 0.98 with no
lower clamp, leaving the ball speed at 49/250 = 0.196 < baseSpeed = 0.2 —
the claimed invariant `speed ∈ [baseSpeed, maxSpeed]` fails. -/
theorem wall_bounce_speed_below_base_cex :
    c3state.speed = BALL_SPEED ∧
    (useFrameTick zeroOracle zeroOracle zeroOracle true false false "R" 1000
        c3state).1.speed = 49/250 ∧
    (49/250 : ℚ) < BALL_SPEED := by
  refine ⟨by norm_num [c3state, BALL_SPEED], ?_, by norm_num [BALL_SPEED]⟩
  norm_num [useFrameTick, paddleStep, paddleTarget, three_clamp, ballPhase,
    runSubsteps, substep, substepFinish, moveVec, checkWallCollision, checkPaddleCollision,
    wallDampSpeed, paddleBoostSpeed, paddleBounceDir, handleScoringStep,
    COURT_WIDTH, COURT_LENGTH, BALL_RADIUS, BALL_SPEED, PADDLE_SPEED,
    PADDLE_WIDTH, PADDLE_HEIGHT, PADDLE_DEPTH, COLLISION_BUFFER,
    WALL_BOUNCE_DAMPENING, PADDLE_BOUNCE_BOOST, MAX_BALL_SPEED, SYNC_RATE,
    COLLISION_CHECK_STEPS, COLLISION_COOLDOWN, c3state, zeroOracle, min_def,
    max_def, abs]

/-- C3 amended: every paddle-bounce boost is capped at `MAX_BALL_SPEED`
and keeps the speed positive; the serve/reset speed `BALL_SPEED` is
within `[BALL_SPEED, MAX_BALL_SPEED]`; the wall-bounce dampening keeps
the speed positive and below `MAX_BALL_SPEED` but strictly DECREASES it
with no floor, so the speed can drop below `BALL_SPEED` (the base speed)
— the invariant that holds is `0 < speed ≤ MAX_BALL_SPEED`, not
`BALL_SPEED ≤ speed`. -/
theorem speed_bounds_amended (s v : ℚ) (h0 : 0 < s) (hmax : s ≤ MAX_BALL_SPEED) :
    paddleBoostSpeed s v ≤ MAX_BALL_SPEED ∧
    0 < paddleBoostSpeed s v ∧
    0 < wallDampSpeed s ∧
    wallDampSpeed s ≤ MAX_BALL_SPEED ∧
    wallDampSpeed s < s ∧
    0 < BALL_SPEED ∧ BALL_SPEED ≤ MAX_BALL_SPEED := by
  have hv : (0 : ℚ) ≤ |v| := abs_nonneg v
  refine ⟨min_le_right _ _, ?_, ?_, ?_, ?_, by norm_num [BALL_SPEED],
    by norm_num [BALL_SPEED, MAX_BALL_SPEED]⟩
  · refine lt_min ?_ (by norm_num [MAX_BALL_SPEED])
    have hf : (0 : ℚ) < PADDLE_BOUNCE_BOOST + |v| * (1/100) := by
      norm_num [PADDLE_BOUNCE_BOOST]
      linarith
    exact mul_pos h0 hf
  · exact mul_pos h0 (by norm_num [WALL_BOUNCE_DAMPENING])
  · unfold wallDampSpeed WALL_BOUNCE_DAMPENING
    unfold MAX_BALL_SPEED at hmax ⊢
    nlinarith
  · unfold wallDampSpeed WALL_BOUNCE_DAMPENING
    nlinarith

/-- C3 witness: the amended bounds at the serve speed and zero paddle
velocity. -/
theorem speed_bounds_amended_w :
    paddleBoostSpeed (1/5) 0 ≤ MAX_BALL_SPEED ∧
    0 < paddleBoostSpeed (1/5) 0 ∧
    0 < wallDampSpeed (1/5) ∧
    wallDampSpeed (1/5) ≤ MAX_BALL_SPEED ∧
    wallDampSpeed (1/5) < 1/5 ∧
    0 < BALL_SPEED ∧ BALL_SPEED ≤ MAX_BALL_SPEED :=
  speed_bounds_amended (1/5) 0 (by norm_num) (by norm_num [MAX_BALL_SPEED])

/-! ## C8: scoring fires exactly once per crossing -/

theorem substep_emits_shape (sinO cosO sqrtO : ℚ → ℚ) (isHost : Bool)
    (roomId : String) (now stepDelta : ℚ) (dirC : Vec3) (p1x oppX : ℚ)
    (st : SubSt) :
    ((substep sinO cosO sqrtO isHost roomId now stepDelta dirC p1x oppX st).1).emits
      = st.emits ∨
    ∃ b, ((substep sinO cosO sqrtO isHost roomId now stepDelta dirC p1x oppX st).1).emits
      = st.emits ++ [CEmit.ballUpdate roomId b] := by
  have hfin : ∀ (np3 pend3 : Vec3) (sp3 lc3 : ℚ) (hit3 : Bool),
      ((substepFinish roomId dirC st np3 pend3 sp3 lc3 hit3).1).emits = st.emits ∨
      ∃ b, ((substepFinish roomId dirC st np3 pend3 sp3 lc3 hit3).1).emits =
        st.emits ++ [CEmit.ballUpdate roomId b] := by
    intro np3 pend3 sp3 lc3 hit3
    cases hit3
    · left
      rfl
    · right
      exact ⟨_, rfl⟩
  unfold substep
  exact hfin _ _ _ _ _

theorem runSubsteps_no_score (sinO cosO sqrtO : ℚ → ℚ) (isHost : Bool)
    (roomId : String) (now stepDelta : ℚ) (dirC : Vec3) (p1x oppX : ℚ)
    (n : ℕ) (st : SubSt) (h : st.emits.filter isScoreUpd = []) :
    ((runSubsteps sinO cosO sqrtO isHost roomId now stepDelta dirC p1x oppX n st).emits).filter
      isScoreUpd = [] := by
  induction n generalizing st with
  | zero => simpa [runSubsteps] using h
  | succ n ih =>
    rw [runSubsteps]
    have hsub : ((substep sinO cosO sqrtO isHost roomId now stepDelta dirC p1x oppX
        st).1).emits.filter isScoreUpd = [] := by
      rcases substep_emits_shape sinO cosO sqrtO isHost roomId now stepDelta dirC
        p1x oppX st with he | ⟨b, he⟩
      · rw [he, h]
      · rw [he, List.filter_append, h]
        rfl
    by_cases h2 : (substep sinO cosO sqrtO isHost roomId now stepDelta dirC p1x oppX st).2
    · simpa [h2] using hsub
    · simpa [h2] using ih _ hsub

/-- C8: during the score cooldown a frame advances nothing and emits
nothing (the physics is stopped until the countdown completes); when the
sub-step phase of a host frame leaves the committed ball z at or beyond
`+COURT_LENGTH/2 + BALL_RADIUS`, that frame's ball phase credits exactly
the player-1 counter (participant index 0) with exactly one increment,
emits exactly one `scoreUpdate` (so multiple sub-steps can never double a
crossing: the baseline check runs once per frame, after the loop), resets
the ball to the origin at serve speed, and raises the cooldown — and the
final countdown timer is what clears the cooldown again. -/
theorem scoring_once_per_crossing (sinO cosO sqrtO : ℚ → ℚ) (l r : Bool)
    (roomId : String) (now delta p1x : ℚ) (c cc : ClientState) (serveDir : Vec3) :
    (cc.scoreCooldown = true →
      useFrameTick sinO cosO sqrtO true l r roomId now cc = (cc, [])) ∧
    ((runSubsteps sinO cosO sqrtO true roomId now
        (delta / (COLLISION_CHECK_STEPS : ℚ)) c.dir p1x c.oppX
        COLLISION_CHECK_STEPS
        ⟨c.ballPos, c.dir, c.speed, c.lastCollisionTime, []⟩).pos.z ≥
        COURT_LENGTH / 2 + BALL_RADIUS →
      (ballPhase sinO cosO sqrtO true roomId now delta c p1x).1.score =
        (c.score.1 + 1, c.score.2) ∧
      (ballPhase sinO cosO sqrtO true roomId now delta c p1x).1.scoreCooldown = true ∧
      (ballPhase sinO cosO sqrtO true roomId now delta c p1x).1.ballPos =
        ⟨0, BALL_RADIUS, 0⟩ ∧
      (ballPhase sinO cosO sqrtO true roomId now delta c p1x).1.speed = BALL_SPEED ∧
      ((ballPhase sinO cosO sqrtO true roomId now delta c p1x).2).filter isScoreUpd =
        [CEmit.scoreUpdate roomId (c.score.1 + 1, c.score.2)]) ∧
    (finishCountdown true roomId serveDir cc).1.scoreCooldown = false := by
  refine ⟨?_, ?_, by simp [finishCountdown]⟩
  · intro h
    by_cases hg : cc.gameStatus = GStatus.playing <;> simp [useFrameTick, hg, h]
  · intro hz
    have hpos : (0 : ℚ) < COURT_LENGTH / 2 + BALL_RADIUS := by
      norm_num [COURT_LENGTH, BALL_RADIUS]
    have hz2 : ¬ ((runSubsteps sinO cosO sqrtO true roomId now
        (delta / (COLLISION_CHECK_STEPS : ℚ)) c.dir p1x c.oppX
        COLLISION_CHECK_STEPS
        ⟨c.ballPos, c.dir, c.speed, c.lastCollisionTime, []⟩).pos.z ≤
        -(COURT_LENGTH / 2) - BALL_RADIUS) := by
      intro hle
      linarith
    have hfil : ((runSubsteps sinO cosO sqrtO true roomId now
        (delta / (COLLISION_CHECK_STEPS : ℚ)) c.dir p1x c.oppX
        COLLISION_CHECK_STEPS
        ⟨c.ballPos, c.dir, c.speed, c.lastCollisionTime, []⟩).emits).filter
        isScoreUpd = [] :=
      runSubsteps_no_score sinO cosO sqrtO true roomId now _ c.dir p1x c.oppX _ _ rfl
    simp only [ballPhase, hz2, hz, if_true, if_false, ite_true, ite_false,
      if_neg hz2, if_pos hz]
    refine ⟨by simp [handleScoringStep], by simp [handleScoringStep],
      by simp [handleScoringStep], by simp [handleScoringStep], ?_⟩
    simp only [handleScoringStep]
    rw [List.filter_append, List.filter_append, hfil]
    by_cases hsync : now - c.lastSyncTime ≥ SYNC_RATE <;>
      simp [hsync, isScoreUpd]

/-- Host state about to cross the far baseline: ball at z = 10.3 heading
along `(0, 0, 1)` at serve speed; paddle cooldown freshly stamped, so the
paddle tests return early and the zero oracle is never consulted on a
collision. -/
def c8state : ClientState :=
  { ballPos := ⟨0, 11/50, 103/10⟩
    dir := ⟨0, 0, 1⟩
    speed := 1/5
    score := (0, 0)
    gameStatus := GStatus.playing
    scoreCooldown := false
    lastScorer := none
    lastCollisionTime := 1000
    lastSyncTime := 1000
    lastFrameTime := 1 - 1/60
    p1x := 0
    oppX := 0 }

/-- The same state during the score cooldown. -/
def c8cool : ClientState := { c8state with scoreCooldown := true }

/-- C8 witness: the cooldown state is frozen by a tick; the concrete
crossing frame (the sub-step phase carries the ball from z = 10.3 to
z = 10.5 ≥ 10.22) bumps player 1 exactly once, raises the cooldown, and
emits exactly one `scoreUpdate`; finishing the countdown clears the
cooldown. -/
theorem scoring_once_per_crossing_w :
    useFrameTick zeroOracle zeroOracle zeroOracle true false false "R" 1000 c8cool =
      (c8cool, []) ∧
    ((ballPhase zeroOracle zeroOracle zeroOracle true "R" 1000 (1/60) c8state 0).1.score =
        (c8state.score.1 + 1, c8state.score.2) ∧
      (ballPhase zeroOracle zeroOracle zeroOracle true "R" 1000 (1/60) c8state
        0).1.scoreCooldown = true ∧
      (ballPhase zeroOracle zeroOracle zeroOracle true "R" 1000 (1/60) c8state
        0).1.ballPos = ⟨0, BALL_RADIUS, 0⟩ ∧
      (ballPhase zeroOracle zeroOracle zeroOracle true "R" 1000 (1/60) c8state
        0).1.speed = BALL_SPEED ∧
      ((ballPhase zeroOracle zeroOracle zeroOracle true "R" 1000 (1/60) c8state
        0).2).filter isScoreUpd =
        [CEmit.scoreUpdate "R" (c8state.score.1 + 1, c8state.score.2)]) ∧
    (finishCountdown true "R" ⟨0, 0, 1⟩ c8cool).1.scoreCooldown = false :=
  ⟨(scoring_once_per_crossing zeroOracle zeroOracle zeroOracle false false "R"
      1000 (1/60) 0 c8state c8cool ⟨0, 0, 1⟩).1 rfl,
   (scoring_once_per_crossing zeroOracle zeroOracle zeroOracle false false "R"
      1000 (1/60) 0 c8state c8cool ⟨0, 0, 1⟩).2.1 (by
        norm_num [runSubsteps, substep, substepFinish, moveVec, checkWallCollision,
          checkPaddleCollision, wallDampSpeed, paddleBoostSpeed, paddleBounceDir,
          COURT_WIDTH, COURT_LENGTH, BALL_RADIUS, BALL_SPEED, PADDLE_WIDTH,
          PADDLE_HEIGHT, PADDLE_DEPTH, COLLISION_BUFFER, WALL_BOUNCE_DAMPENING,
          PADDLE_BOUNCE_BOOST, MAX_BALL_SPEED, COLLISION_CHECK_STEPS,
          COLLISION_COOLDOWN, c8state, zeroOracle, min_def, max_def, abs]),
   (scoring_once_per_crossing zeroOracle zeroOracle zeroOracle false false "R"
      1000 (1/60) 0 c8state c8cool ⟨0, 0, 1⟩).2.2⟩

/-! ## C9: the paddle-x range invariant -/

/-- The claimed paddle range
`[-courtWidth/2 + paddleHalfWidth, courtWidth/2 - paddleHalfWidth]`. -/
def paddleXInRange (v : Vec3) : Prop :=
  -COURT_WIDTH / 2 + PADDLE_WIDTH / 2 ≤ v.x ∧
  v.x ≤ COURT_WIDTH / 2 - PADDLE_WIDTH / 2

/-- Every stored paddle position is in range. -/
def PaddlesInRange (l : List (String × Vec3)) : Prop :=
  ∀ p pos, (p, pos) ∈ l → paddleXInRange pos

theorem paddlesInRange_alSet {l : List (String × Vec3)} {k : String} {v : Vec3}
    (hl : PaddlesInRange l) (hv : paddleXInRange v) :
    PaddlesInRange (alSet l k v) := by
  intro p pos hm
  rcases mem_alSet hm with h | ⟨_, h2⟩
  · exact hl p pos h
  · rw [h2]
    exact hv

theorem paddlesInRange_center_fold (players : List String) :
    ∀ acc : List (String × Vec3), PaddlesInRange acc →
      PaddlesInRange (players.foldl (fun a p => alSet a p ⟨0, 3/20, 0⟩) acc) := by
  induction players with
  | nil =>
    intro acc h
    simpa using h
  | cons q t ih =>
    intro acc h
    rw [List.foldl_cons]
    refine ih _ (paddlesInRange_alSet h ?_)
    constructor <;> norm_num [COURT_WIDTH, PADDLE_WIDTH]

/-- A registry holding one fresh single-player room for the C9 scenario. -/
def c9rs : Registry := [("R", freshRoom "h" "R")]

/-- C9 counterexample: the server stores a `paddleMove` payload verbatim;
with payload x = 100 the stored paddle x is 100, far outside
`[-courtWidth/2 + paddleHalfWidth, courtWidth/2 - paddleHalfWidth] = [-4, 4]`
— no operation on the server clamps it. -/
theorem paddle_stored_unclamped_cex :
    (alGet (handlePaddleMove c9rs "h" "R" ⟨100, 3/20, -9⟩).1 "R").map
      (fun r => alGet r.gameState.paddles "h") = some (some ⟨100, 3/20, -9⟩) ∧
    ¬ ((100 : ℚ) ≤ COURT_WIDTH / 2 - PADDLE_WIDTH / 2) := by
  refine ⟨rfl, by norm_num [COURT_WIDTH, PADDLE_WIDTH]⟩

/-- C9 amended: room creation, join and the readiness reset only ever
store paddle positions with x = 0, which is in range, and the client
clamps its per-frame paddle target into exactly the claimed interval
before emitting; but the server stores a `paddleMove` payload without
validation, so the stored x stays in range only under the hypothesis that
the payload's x is in range (true for payloads produced by the client's
clamp, not enforced for arbitrary senders). -/
theorem paddle_clamp_amended (rs : Registry) (roomId : String)
    (room r' : GameRoom) (sid : String) (pos : Vec3)
    (isHost left right : Bool) (delta p1x : ℚ) :
    PaddlesInRange (freshRoom sid roomId).gameState.paddles ∧
    (alGet rs roomId = some room → PaddlesInRange room.gameState.paddles →
      alGet (handleJoinRoom rs sid roomId).1 roomId = some r' →
      PaddlesInRange r'.gameState.paddles) ∧
    (alGet rs roomId = some room →
      alGet (handleReady rs sid roomId).1 roomId = some r' →
      PaddlesInRange room.gameState.paddles →
      PaddlesInRange r'.gameState.paddles) ∧
    (alGet rs roomId = some room → PaddlesInRange room.gameState.paddles →
      paddleXInRange pos →
      alGet (handlePaddleMove rs sid roomId pos).1 roomId = some r' →
      PaddlesInRange r'.gameState.paddles) ∧
    (-COURT_WIDTH / 2 + PADDLE_WIDTH / 2 ≤ paddleTarget isHost left right delta p1x ∧
      paddleTarget isHost left right delta p1x ≤ COURT_WIDTH / 2 - PADDLE_WIDTH / 2) := by
  refine ⟨?_, ?_, ?_, ?_, ?_, ?_⟩
  · intro p pos2 hm
    have h2 : pos2 = ⟨0, 3/20, -9⟩ := by
      simpa [freshRoom, createGameState] using congrArg Prod.snd (List.mem_singleton.mp hm)
    rw [h2]
    constructor <;> norm_num [COURT_WIDTH, PADDLE_WIDTH]
  · intro hget hpr hres
    by_cases hfull : room.players.length ≥ 2
    · simp [handleJoinRoom, hget, hfull] at hres
      rw [← hres]
      exact hpr
    · simp [handleJoinRoom, hget, hfull, alGet_alSet_self] at hres
      rw [← hres]
      exact paddlesInRange_alSet hpr
        (by constructor <;> norm_num [COURT_WIDTH, PADDLE_WIDTH])
  · intro hget hres hpr
    by_cases hact : room.isActive = false
    · simp [handleReady, hget, hact] at hres
      rw [← hres]
      exact hpr
    · by_cases hc : sid ∈ room.players
      · by_cases hlen :
          (insertReady room.readyPlayers sid).length = room.players.length
        · simp [handleReady, hget, hact, hc, hlen, alGet_alSet_self] at hres
          rw [← hres]
          intro p pos2 hm
          exact paddlesInRange_center_fold room.players []
            (by intro a b hb; simp at hb) p pos2
            (by simpa [readyResetState] using hm)
        · simp [handleReady, hget, hact, hc, hlen, alGet_alSet_self] at hres
          rw [← hres]
          exact hpr
      · simp [handleReady, hget, hact, hc] at hres
        rw [← hres]
        exact hpr
  · intro hget hpr hpos hres
    by_cases hhas : (alGet room.gameState.paddles sid).isSome
    · simp [handlePaddleMove, hget, hhas, alGet_alSet_self] at hres
      rw [← hres]
      exact paddlesInRange_alSet hpr hpos
    · simp [handlePaddleMove, hget, hhas] at hres
      rw [← hres]
      exact hpr
  · unfold paddleTarget three_clamp
    exact le_max_left _ _
  · unfold paddleTarget three_clamp
    exact max_le (by norm_num [COURT_WIDTH, PADDLE_WIDTH]) (min_le_left _ _)

/-- The room after the guest joins the C9 room. -/
def c9joinedRoom : GameRoom :=
  { id := "R"
    players := ["h", "g"]
    gameState :=
      { createGameState with paddles := [("h", ⟨0, 3/20, -9⟩), ("g", ⟨0, 3/20, 9⟩)] }
    isActive := false
    readyPlayers := [] }

/-- The joined room once activated with the host ready. -/
def c9activeRoom : GameRoom :=
  { c9joinedRoom with isActive := true, readyPlayers := ["h"] }

/-- Registry holding the active C9 room. -/
def c9ars : Registry := [("R", c9activeRoom)]

/-- The active room after the readiness reset completes. -/
def c9resetRoom : GameRoom :=
  { c9activeRoom with readyPlayers := ["h", "g"]
                      gameState := readyResetState ["h", "g"] }

/-- The fresh room after an in-range paddle move to x = 2. -/
def c9movedRoom : GameRoom :=
  { freshRoom "h" "R" with
      gameState := { (freshRoom "h" "R").gameState with
        paddles := [("h", ⟨2, 3/20, -9⟩)] } }

/-- C9 witness: creation, a concrete join, a concrete readiness reset and
a concrete in-range paddle move all leave every stored paddle x in
[-4, 4], and a concrete clamped paddle target lands in the interval. -/
theorem paddle_clamp_amended_w :
    PaddlesInRange (freshRoom "h" "R").gameState.paddles ∧
    PaddlesInRange c9joinedRoom.gameState.paddles ∧
    PaddlesInRange c9resetRoom.gameState.paddles ∧
    PaddlesInRange c9movedRoom.gameState.paddles ∧
    (-COURT_WIDTH / 2 + PADDLE_WIDTH / 2 ≤ paddleTarget true true false (1/60) 0 ∧
      paddleTarget true true false (1/60) 0 ≤ COURT_WIDTH / 2 - PADDLE_WIDTH / 2) :=
  ⟨(paddle_clamp_amended c9rs "R" (freshRoom "h" "R") c9joinedRoom "h"
      ⟨2, 3/20, -9⟩ true true false (1/60) 0).1,
   (paddle_clamp_amended c9rs "R" (freshRoom "h" "R") c9joinedRoom "g"
      ⟨2, 3/20, -9⟩ true true false (1/60) 0).2.1 rfl
      (paddle_clamp_amended c9rs "R" (freshRoom "h" "R") c9joinedRoom "h"
        ⟨2, 3/20, -9⟩ true true false (1/60) 0).1 rfl,
   (paddle_clamp_amended c9ars "R" c9activeRoom c9resetRoom "g"
      ⟨2, 3/20, -9⟩ true true false (1/60) 0).2.2.1 rfl rfl
      ((paddle_clamp_amended c9rs "R" (freshRoom "h" "R") c9joinedRoom "g"
        ⟨2, 3/20, -9⟩ true true false (1/60) 0).2.1 rfl
        (paddle_clamp_amended c9rs "R" (freshRoom "h" "R") c9joinedRoom "h"
          ⟨2, 3/20, -9⟩ true true false (1/60) 0).1 rfl),
   (paddle_clamp_amended c9rs "R" (freshRoom "h" "R") c9movedRoom "h"
      ⟨2, 3/20, -9⟩ true true false (1/60) 0).2.2.2.1 rfl
      (paddle_clamp_amended c9rs "R" (freshRoom "h" "R") c9joinedRoom "h"
        ⟨2, 3/20, -9⟩ true true false (1/60) 0).1
      (by constructor <;> norm_num [COURT_WIDTH, PADDLE_WIDTH]) rfl,
   (paddle_clamp_amended c9rs "R" (freshRoom "h" "R") c9joinedRoom "h"
      ⟨2, 3/20, -9⟩ true true false (1/60) 0).2.2.2.2⟩

end PingPong
